import Mathlib

/-!
Shallow embedding of the warehouse simulation backend (`backend.cpp`,
namespace `ws`) and proofs about it.

Conventions of the embedding:
- C++ `int` values are modelled as `ℤ` (loop indices and sizes that are
  always non-negative — product ids, day counter, N/M/K — as `ℕ`).
- C++ `float`/`double` values (prices, money, probabilities, animation
  times) are modelled as `ℚ`; float literals such as `0.35f` become the
  corresponding rationals.  The claims settled here do not depend on
  floating-point rounding artefacts.
- `std::deque<Batch>` becomes `List Batch` with the front at the head.
- `std::map<int, std::vector<Shipment>>` becomes an association list;
  the program only uses point lookups and appends, for which the two
  agree.
- The shared `std::mt19937` generator is modelled as a deterministic
  stream of 32-bit words derived from the seed (`RngWord`); each
  distribution draw (`RandInt`, `RandFloat`, `RandBernoulli`) consumes
  exactly one word.  The exact Mersenne-twister bit computations and the
  library distribution algorithms are abstracted by this concrete
  deterministic stand-in; what the claims use is that the stream is a
  pure function of the seed, that draws are consumed in program order,
  and the range of each draw.
- Log strings are modelled as structured `LogEntry` values carrying the
  same data that the C++ code formats into the string.
-/

/-- `ws::ProductConfig` (backend.cpp lines 20-31), with the C++ field
default values. -/
structure ProductConfig where
  name : String := "Product"
  unitName : String := "pcs"
  unitsPerPackage : ℤ := 10
  capacityPackages : ℤ := 20
  shelfLifeDays : ℤ := 14
  discountBeforeDays : ℤ := 3
  basePricePerUnit : ℚ := 1
  discountPercent : ℚ := 25
  reorderThreshold : ℤ := 6
  reorderAmount : ℤ := 12
deriving Repr, DecidableEq

instance : Inhabited ProductConfig := ⟨{}⟩

/-- `ws::DayStats` (lines 33-39). -/
structure DayStats where
  revenue : ℚ := 0
  discountLoss : ℚ := 0
  writeOffLoss : ℚ := 0
  totalSoldUnits : ℤ := 0
  totalWriteOffUnits : ℤ := 0
deriving Repr, DecidableEq

/-- `ws::SimConfig` (lines 41-58), with the C++ default values. -/
structure SimConfig where
  N : ℕ := 20
  M : ℕ := 5
  K : ℕ := 12
  seed : ℕ := 12345
  orderProbability : ℚ := 85/100
  maxLinesPerOrder : ℤ := 6
  minUnitsPerLine : ℤ := 5
  maxUnitsPerLine : ℤ := 120
  discountDemandBoost : ℚ := 2
  supplierLeadTimeMin : ℤ := 1
  supplierLeadTimeMax : ℤ := 5
  secondsPerDay : ℚ := 6
deriving Repr, DecidableEq

/-- `ws::OrderRow` (lines 60-67); rows are only built from generated
orders, whose shop ids are in `[0, M)`, hence `shopId : ℕ`. -/
structure OrderRow where
  shopId : ℕ
  productId : ℕ
  requestedUnits : ℤ
  chosenPackages : ℤ
  deliveredPackages : ℤ
  deliveredUnits : ℤ
deriving Repr, DecidableEq

/-- `ws::AnimType` (line 69). -/
inductive AnimType where
  | SupplyTruck
  | ShipmentTruck
  | OrderPaper
  | WasteTruck
deriving Repr, DecidableEq

/-- `ws::Anim` (lines 71-77). -/
structure Anim where
  type : AnimType := AnimType.SupplyTruck
  t0 : ℚ := 0
  t1 : ℚ := 1
  shopId : ℤ := -1
  payload : ℤ := 0
deriving Repr, DecidableEq

/-- `ws::Batch` (lines 139-144). -/
structure Batch where
  packages : ℤ := 0
  daysLeft : ℤ := 0
  discounted : Bool := false
  unitPrice : ℚ := 0
deriving Repr, DecidableEq

/-- `ws::SupplierDelivery` (lines 146-150); product ids are in `[0, K)`. -/
structure SupplierDelivery where
  productId : ℕ
  packages : ℤ
  daysUntilArrival : ℤ
deriving Repr, DecidableEq

/-- `ws::OrderLine` (lines 152-158). -/
structure OrderLine where
  productId : ℕ
  requestedUnits : ℤ := 0
  chosenPackages : ℤ := 0
  deliveredPackages : ℤ := 0
  deliveredUnits : ℤ := 0
deriving Repr, DecidableEq

/-- `ws::Order` (lines 160-164). -/
structure Order where
  day : ℕ
  shopId : ℕ
  lines : List OrderLine
deriving Repr, DecidableEq

/-- `ws::Shipment` (lines 166-170); `items` is a list of
(productId, packages) pairs. -/
structure Shipment where
  day : ℕ
  shopId : ℕ
  items : List (ℕ × ℤ)
deriving Repr, DecidableEq

/-- Structured model of the log strings pushed by `PushLog` call sites;
each constructor corresponds to one `PushLog` site and carries the data
the C++ code formats into the string. -/
inductive LogEntry where
  | resetDone
  | separator
  | dayStarted (day : ℕ)
  | supplyArrived (name : String) (packages : ℤ)
  | supplyOverflow (name : String) (packages : ℤ)
  | writeOffDone (name : String) (packages : ℤ)
  | discountApplied (name : String) (percent : ℤ) (packages : ℤ)
  | shipmentsFormed (count : ℕ)
  | noShipments
  | supplierRequest (name : String) (packages : ℤ) (leadDays : ℤ)
  | daySummary (day : ℕ) (revenue : ℚ) (discountLoss : ℚ) (writeOffLoss : ℚ)
deriving Repr, DecidableEq

/-- Model of the shared `std::mt19937` generator state: the seed it was
last seeded with plus the number of words consumed so far. -/
structure Rng where
  seed : ℕ
  idx : ℕ
deriving Repr, DecidableEq

/-- The i-th 32-bit word of the stream for a given seed: a concrete
deterministic mixing function standing in for the mt19937 output
sequence. -/
def RngWord (seed i : ℕ) : ℕ :=
  let z1 := (seed + (i + 1) * 2654435769) % 4294967296
  let z2 := ((z1 ^^^ (z1 >>> 15)) * 2246822519) % 4294967296
  (z2 ^^^ (z2 >>> 13)) % 4294967296

/-- Draw one word from the stream. -/
def RngNext (r : Rng) : ℕ × Rng :=
  (RngWord r.seed r.idx, { r with idx := r.idx + 1 })

/-- Model of `RandInt` (lines 84-88): `std::uniform_int_distribution`
on `[lo, hi]`, modelled as `lo + word mod (hi - lo + 1)`.  All call
sites in the program have `lo ≤ hi`. -/
def RandInt (rng : Rng) (lo hi : ℤ) : ℤ × Rng :=
  let p := RngNext rng
  (lo + (p.1 : ℤ) % (hi - lo + 1), p.2)

/-- Model of `RandFloat` (lines 90-93): `std::uniform_real_distribution`
on `[lo, hi)`, modelled as `lo + (word / 2^32) * (hi - lo)`. -/
def RandFloat (rng : Rng) (lo hi : ℚ) : ℚ × Rng :=
  let p := RngNext rng
  (lo + ((p.1 : ℚ) / 4294967296) * (hi - lo), p.2)

/-- `Clamp01` (line 82). -/
def Clamp01 (x : ℚ) : ℚ := if x < 0 then 0 else if 1 < x then 1 else x

/-- Model of `RandBernoulli` (lines 95-99): true with probability
`Clamp01 p`, modelled as `word / 2^32 < Clamp01 p`. -/
def RandBernoulli (rng : Rng) (p : ℚ) : Bool × Rng :=
  let q := RngNext rng
  (decide (((q.1 : ℚ) / 4294967296) < Clamp01 p), q.2)

/-- `ClampConfig` (lines 108-123).  `std::clamp(v, lo, hi)` is
`max lo (min hi v)`; the sequential updates reuse already-clamped
fields exactly as the C++ does. -/
def ClampConfig (c : SimConfig) : SimConfig :=
  let n := max 10 (min 30 c.N)
  let m := max 3 (min 9 c.M)
  let k := max 12 (min 20 c.K)
  let op := max 0 (min 1 c.orderProbability)
  let mlo := max 1 (min 20 c.maxLinesPerOrder)
  let minU := max 1 c.minUnitsPerLine
  let maxU := max minU c.maxUnitsPerLine
  let boost := max 0 (min 10 c.discountDemandBoost)
  let ltMin := max 1 (min 30 c.supplierLeadTimeMin)
  let ltMax := max ltMin (min 60 c.supplierLeadTimeMax)
  let spd := max (1/4) (min 30 c.secondsPerDay)
  { c with N := n, M := m, K := k, orderProbability := op,
           maxLinesPerOrder := mlo, minUnitsPerLine := minU,
           maxUnitsPerLine := maxU, discountDemandBoost := boost,
           supplierLeadTimeMin := ltMin, supplierLeadTimeMax := ltMax,
           secondsPerDay := spd }

/-- `ClampProduct` (lines 125-134). -/
def ClampProduct (p : ProductConfig) : ProductConfig :=
  let upp := max 1 (min 1000 p.unitsPerPackage)
  let cap := max 0 (min 5000 p.capacityPackages)
  let sl := max 1 (min 365 p.shelfLifeDays)
  let dbd := max 0 (min sl p.discountBeforeDays)
  let bp := max (1/100) p.basePricePerUnit
  let dp := max 0 (min 95 p.discountPercent)
  let rt := max 0 (min cap p.reorderThreshold)
  let ra := max 0 (min cap p.reorderAmount)
  { p with unitsPerPackage := upp, capacityPackages := cap,
           shelfLifeDays := sl, discountBeforeDays := dbd,
           basePricePerUnit := bp, discountPercent := dp,
           reorderThreshold := rt, reorderAmount := ra }

/-- `ws::Warehouse` (line 172-173): one batch queue per product. -/
structure Warehouse where
  inv : List (List Batch)
deriving Repr, DecidableEq

/-- `Warehouse::TotalPackages` (lines 177-182); an out-of-range id
yields the empty queue, hence 0, as in the C++ guard. -/
def Warehouse.TotalPackages (w : Warehouse) (pid : ℕ) : ℤ :=
  (w.inv.getD pid []).foldl (fun s b => s + b.packages) 0

/-- `Warehouse::HasDiscountStock` (lines 184-188). -/
def Warehouse.HasDiscountStock (w : Warehouse) (pid : ℕ) : Bool :=
  (w.inv.getD pid []).any fun b => decide (0 < b.packages) && b.discounted

/-- `Warehouse::DecrementShelfLife` (lines 190-194). -/
def Warehouse.DecrementShelfLife (w : Warehouse) : Warehouse :=
  ⟨w.inv.map fun dq => dq.map fun b => { b with daysLeft := b.daysLeft - 1 }⟩

/-- The front-scanning loop of `Warehouse::WriteOffExpired` (lines
200-203): pop batches from the front while `daysLeft ≤ 0`, summing
their packages. -/
def DropExpiredFront : List Batch → ℤ × List Batch
  | [] => (0, [])
  | b :: rest =>
    if b.daysLeft ≤ 0 then
      let p := DropExpiredFront rest
      (p.1 + b.packages, p.2)
    else (0, b :: rest)

/-- `Warehouse::WriteOffExpired` (lines 196-210): returns the number of
written-off packages together with the updated warehouse and stats. -/
def Warehouse.WriteOffExpired (w : Warehouse) (pid : ℕ) (pc : ProductConfig)
    (st : DayStats) : ℤ × Warehouse × DayStats :=
  if w.inv.length ≤ pid then (0, w, st)
  else
    let p := DropExpiredFront (w.inv.getD pid [])
    let st' :=
      if 0 < p.1 then
        let units := p.1 * pc.unitsPerPackage
        { st with totalWriteOffUnits := st.totalWriteOffUnits + units,
                  writeOffLoss := st.writeOffLoss + (units : ℚ) * pc.basePricePerUnit }
      else st
    (p.1, ⟨w.inv.set pid p.2⟩, st')

/-- `Warehouse::Receive` (lines 212-221). -/
def Warehouse.Receive (w : Warehouse) (pid : ℕ) (packages : ℤ)
    (pc : ProductConfig) : Warehouse :=
  if w.inv.length ≤ pid then w
  else if packages ≤ 0 then w
  else ⟨w.inv.set pid ((w.inv.getD pid []) ++
    [{ packages := packages, daysLeft := pc.shelfLifeDays,
       discounted := false, unitPrice := pc.basePricePerUnit }])⟩

/-- The batch scan of `Warehouse::ApplyDiscountIfNeeded` (lines
226-232): mark each not-yet-discounted batch inside the discount window
and reprice it, summing the affected packages. -/
def DiscountQueue (pc : ProductConfig) : List Batch → ℤ × List Batch
  | [] => (0, [])
  | b :: rest =>
    let p := DiscountQueue pc rest
    if ¬ b.discounted ∧ 0 < b.daysLeft ∧ b.daysLeft ≤ pc.discountBeforeDays then
      (p.1 + b.packages,
       { b with discounted := true,
                unitPrice := pc.basePricePerUnit * (1 - pc.discountPercent / 100) } :: p.2)
    else (p.1, b :: p.2)

/-- `Warehouse::ApplyDiscountIfNeeded` (lines 223-234). -/
def Warehouse.ApplyDiscountIfNeeded (w : Warehouse) (pid : ℕ)
    (pc : ProductConfig) : ℤ × Warehouse :=
  if w.inv.length ≤ pid then (0, w)
  else
    let p := DiscountQueue pc (w.inv.getD pid [])
    (p.1, ⟨w.inv.set pid p.2⟩)

/-- The per-batch repricing of `Warehouse::RepriceBatches` (lines
238-243). -/
def RepriceQueue (pc : ProductConfig) (dq : List Batch) : List Batch :=
  dq.map fun b =>
    { b with unitPrice :=
        if b.discounted then pc.basePricePerUnit * (1 - pc.discountPercent / 100)
        else pc.basePricePerUnit }

/-- The FIFO drain loop of `Warehouse::FulfillLine` (lines 281-299):
take `remaining` packages front-to-back, booking revenue, sold units
and discount loss per batch; fully drained batches are removed. -/
def DrainFIFO (pc : ProductConfig) : List Batch → ℤ → DayStats → List Batch × DayStats
  | [], _, st => ([], st)
  | b :: rest, remaining, st =>
    if remaining ≤ 0 then (b :: rest, st)
    else
      let take := min remaining b.packages
      let units := take * pc.unitsPerPackage
      let base : ℚ := (units : ℚ) * pc.basePricePerUnit
      let actual : ℚ := (units : ℚ) * b.unitPrice
      let st' := { st with
        revenue := st.revenue + actual,
        totalSoldUnits := st.totalSoldUnits + units,
        discountLoss := st.discountLoss + (if b.discounted then base - actual else 0) }
      if b.packages - take = 0 then DrainFIFO pc rest (remaining - take) st'
      else ({ b with packages := b.packages - take } :: rest, st')

/-- The package-quantization steps of `Warehouse::FulfillLine` (lines
254-272): floor/ceil of the exact package count, smaller-error side
with coin tie-break, 35% jitter of ±1 clamped to ≥ 0, and a zero result
forced to 1.  Returns the chosen count and the advanced generator. -/
def ChoosePackages (req upp : ℤ) (rng : Rng) : ℤ × Rng :=
  let exactQ : ℚ := (req : ℚ) / (upp : ℚ)
  let fl : ℤ := ⌊exactQ⌋
  let ce : ℤ := ⌈exactQ⌉
  let pick :=
    if fl = ce then (fl, rng)
    else
      let errFl := |exactQ - (fl : ℚ)|
      let errCe := |(ce : ℚ) - exactQ|
      if errFl < errCe then (fl, rng)
      else if errCe < errFl then (ce, rng)
      else
        let coin := RandBernoulli rng (1/2)
        (if coin.1 then fl else ce, coin.2)
  let jitter := RandBernoulli pick.2 (35/100)
  let adjusted :=
    if jitter.1 then
      let dir := RandBernoulli jitter.2 (1/2)
      (max 0 (pick.1 + (if dir.1 then -1 else 1)), dir.2)
    else (pick.1, jitter.2)
  (if adjusted.1 = 0 then 1 else adjusted.1, adjusted.2)

/-- `Warehouse::FulfillLine` (lines 246-300): package quantization with
randomized tie-break and jitter, then availability cap and FIFO drain.
Returns the updated line, warehouse, generator and stats. -/
def Warehouse.FulfillLine (w : Warehouse) (line : OrderLine)
    (pc : ProductConfig) (rng : Rng) (st : DayStats) :
    OrderLine × Warehouse × Rng × DayStats :=
  if line.requestedUnits ≤ 0 then (line, w, rng, st)
  else if pc.unitsPerPackage ≤ 0 then (line, w, rng, st)
  else
    let ch := ChoosePackages line.requestedUnits pc.unitsPerPackage rng
    let chosen := ch.1
    let available := w.TotalPackages line.productId
    let give := min chosen available
    let line' := { line with chosenPackages := chosen,
                             deliveredPackages := give,
                             deliveredUnits := give * pc.unitsPerPackage }
    let drained := DrainFIFO pc (w.inv.getD line.productId []) give st
    (line', ⟨w.inv.set line.productId drained.1⟩, ch.2, drained.2)

/-- `ws::SimulatorImpl` (lines 306-323). -/
structure SimulatorImpl where
  cfg : SimConfig
  rng : Rng
  day : ℕ
  wh : Warehouse
  products : List ProductConfig
  shopNames : List String
  pipeline : List SupplierDelivery
  shipmentsByDay : List (ℕ × List Shipment)
  todaysOrders : List Order
  todaysStats : DayStats
  totalStats : DayStats
  log : List LogEntry
  dailyAnims : List Anim
deriving Repr

/-- `SimulatorImpl::PushLog` (lines 331-334): append, then keep only
the most recent 400 entries. -/
def PushLog (log : List LogEntry) (e : LogEntry) : List LogEntry :=
  let l := log ++ [e]
  if 400 < l.length then l.drop (l.length - 400) else l

/-- `SimulatorImpl::IncomingPackages` (lines 336-340). -/
def IncomingPackages (pipeline : List SupplierDelivery) (pid : ℕ) : ℤ :=
  pipeline.foldl (fun s d => if d.productId = pid then s + d.packages else s) 0

/-- The product-name table of `Reset` (lines 362-366). -/
def baseNames : List String :=
  ["Рис", "Макароны", "Мука", "Сахар", "Соль", "Масло", "Чай", "Кофе",
   "Тушёнка", "Фасоль", "Кукуруза", "Молоко", "Гречка", "Овсянка",
   "Печенье", "Консервы рыбные", "Сок", "Вода", "Специи", "Шоколад"]

/-- The per-product body of the `Reset` loop (lines 368-386), for
indices `i, i+1, …, i+k-1`: generate the product parameters from the
RNG (same draw order as the C++), clamp them, and stock the initially
empty queue with `round(capacity * uniform[0.30, 0.70))` packages.
The C++ loop touches `products[i]` and queue `i` of the fresh warehouse
exactly once each, in index order, so it is equivalently modelled as
generating the list of (product, queue) pairs. -/
def ResetGenLoop : ℕ → ℕ → Rng → List (ProductConfig × List Batch) × Rng
  | _, 0, rng => ([], rng)
  | i, k + 1, rng =>
    let name := if i < baseNames.length then baseNames.getD i ""
                else "Товар " ++ toString (i + 1)
    let r1 := RandInt rng 6 24
    let r2 := RandInt r1.2 18 40
    let r3 := RandInt r2.2 7 25
    let r4 := RandFloat r3.2 (8/10) (11/2)
    let pc0 : ProductConfig :=
      { name := name, unitName := "ед.",
        unitsPerPackage := r1.1, capacityPackages := r2.1,
        shelfLifeDays := r3.1,
        discountBeforeDays := min 5 (max 2 (r3.1 / 5)),
        basePricePerUnit := r4.1, discountPercent := 25,
        reorderThreshold := max 3 (r2.1 / 5),
        reorderAmount := max 4 (r2.1 / 2) }
    let pc := ClampProduct pc0
    let r5 := RandFloat r4.2 (3/10) (7/10)
    let initP : ℤ := round ((pc.capacityPackages : ℚ) * r5.1)
    let dq : List Batch :=
      if 0 < initP then
        [{ packages := initP, daysLeft := pc.shelfLifeDays,
           discounted := false, unitPrice := pc.basePricePerUnit }]
      else []
    let rest := ResetGenLoop (i + 1) k r5.2
    ((pc, dq) :: rest.1, rest.2)

/-- `SimulatorImpl::Reset` (lines 342-389) as a function of the target
config only: every field of the simulator is overwritten (the generator
is re-seeded), so the pre-state is irrelevant. -/
def ResetSim (c : SimConfig) : SimulatorImpl :=
  let cfg := ClampConfig c
  let rng0 : Rng := { seed := cfg.seed, idx := 0 }
  let shopNames := (List.range cfg.M).map fun i => "Точка " ++ toString (i + 1)
  let gen := ResetGenLoop 0 cfg.K rng0
  { cfg := cfg, rng := gen.2, day := 0,
    wh := ⟨gen.1.map Prod.snd⟩,
    products := gen.1.map Prod.fst,
    shopNames := shopNames,
    pipeline := [], shipmentsByDay := [], todaysOrders := [],
    todaysStats := {}, totalStats := {},
    log := PushLog [] LogEntry.resetDone,
    dailyAnims := [] }

/-- `SimulatorImpl::Reset` (lines 342-389). -/
def SimulatorImpl.Reset (_ : SimulatorImpl) (c : SimConfig) : SimulatorImpl :=
  ResetSim c

/-- `CreateSimulator` (lines 643-647): clamp the config, then the
`SimulatorImpl` constructor runs `Reset`. -/
def CreateSimulator (c : SimConfig) : SimulatorImpl :=
  ResetSim (ClampConfig c)

/-- `SimulatorImpl::ClampAllProducts` (lines 391-396): clamp every
product and reprice its batch queue from the clamped config.  The C++
loop runs over product indices; queues beyond the product count are
untouched, and indices beyond the queue count reprice nothing. -/
def SimulatorImpl.ClampAllProducts (s : SimulatorImpl) : SimulatorImpl :=
  let ps := s.products.map ClampProduct
  { s with products := ps,
           wh := ⟨s.wh.inv.mapIdx fun i dq =>
             if i < ps.length then RepriceQueue (ps.getD i default) dq else dq⟩ }

/-- `SimulatorImpl::CreateSupplierRequestIfNeeded` (lines 435-453),
acting on the mutable components it touches (pipeline, rng, log). -/
def CreateSupplierRequestIfNeeded (cfg : SimConfig)
    (products : List ProductConfig) (wh : Warehouse)
    (acc : List SupplierDelivery × Rng × List LogEntry) (pid : ℕ) :
    List SupplierDelivery × Rng × List LogEntry :=
  let pc := products.getD pid default
  let cur := wh.TotalPackages pid
  let incoming := IncomingPackages acc.1 pid
  if cur + incoming < pc.reorderThreshold then
    let freeCap := pc.capacityPackages - (cur + incoming)
    let want := min pc.reorderAmount (max 0 freeCap)
    if 0 < want then
      let lead := RandInt acc.2.1 cfg.supplierLeadTimeMin cfg.supplierLeadTimeMax
      (acc.1 ++ [{ productId := pid, packages := want, daysUntilArrival := lead.1 }],
       lead.2,
       PushLog acc.2.2 (LogEntry.supplierRequest pc.name want lead.1))
    else acc
  else acc

/-- The demand weight of one product (lines 411-417): 1, boosted if the
product currently has discounted stock. -/
def Weight (cfg : SimConfig) (products : List ProductConfig)
    (wh : Warehouse) (pid : ℕ) : ℚ :=
  if wh.HasDiscountStock pid then
    1 + ((products.getD pid default).discountPercent / 100) * cfg.discountDemandBoost
  else 1

/-- The roulette scan of `PickDistinctProductsWeighted` (lines
421-426): subtract weights until the draw is exhausted; returns the
list length when it never is (the caller clamps). -/
def RouletteIdx : List ℚ → ℚ → ℕ
  | [], _ => 0
  | x :: rest, r => if r - x ≤ 0 then 0 else RouletteIdx rest (r - x) + 1

/-- The pick loop of `PickDistinctProductsWeighted` (lines 406-431):
weighted sampling without replacement from the remaining index pool. -/
def PickLoop (cfg : SimConfig) (products : List ProductConfig) (wh : Warehouse) :
    ℕ → List ℕ → Rng → List ℕ × Rng
  | 0, _, rng => ([], rng)
  | k + 1, remaining, rng =>
    let w := remaining.map (Weight cfg products wh)
    let sum := w.foldl (· + ·) 0
    if sum ≤ 1/10000 then ([], rng)
    else
      let r := RandFloat rng 0 sum
      let idx := min (RouletteIdx w r.1) (remaining.length - 1)
      let pid := remaining.getD idx 0
      let rest := PickLoop cfg products wh k (remaining.eraseIdx idx) r.2
      (pid :: rest.1, rest.2)

/-- `SimulatorImpl::PickDistinctProductsWeighted` (lines 398-433). -/
def PickDistinctProductsWeighted (cfg : SimConfig)
    (products : List ProductConfig) (wh : Warehouse)
    (count : ℕ) (rng : Rng) : List ℕ × Rng :=
  PickLoop cfg products wh (min count cfg.K) (List.range cfg.K) rng

/-- The order-generation loop of `AdvanceDay` (lines 576-594): per
shop, a Bernoulli trial, then a line count, distinct weighted product
picks and per-line requested units. -/
def GenOrders (cfg : SimConfig) (day : ℕ) (products : List ProductConfig)
    (wh : Warehouse) (rng : Rng) : List Order × Rng :=
  (List.range cfg.M).foldl
    (fun acc s =>
      let go := RandBernoulli acc.2 cfg.orderProbability
      if go.1 then
        let maxLines : ℤ := min cfg.maxLinesPerOrder (cfg.K : ℤ)
        let lcount := RandInt go.2 1 (max 1 maxLines)
        let picked := PickDistinctProductsWeighted cfg products wh lcount.1.toNat lcount.2
        let lns := picked.1.foldl
          (fun acc2 pid =>
            let req := RandInt acc2.2 cfg.minUnitsPerLine cfg.maxUnitsPerLine
            (acc2.1 ++ [({ productId := pid, requestedUnits := req.1 } : OrderLine)], req.2))
          (([] : List OrderLine), picked.2)
        (acc.1 ++ [{ day := day, shopId := s, lines := lns.1 }], lns.2)
      else (acc.1, go.2))
    (([] : List Order), rng)

/-- The fulfillment loop of `AdvanceDay` (lines 596-609): fulfill every
line of every order in sequence, and collect a shipment (scheduled for
`day + 1`) per order from its delivered lines. -/
def FulfillOrders (products : List ProductConfig) (day : ℕ)
    (wh : Warehouse) (rng : Rng) (st : DayStats) (orders : List Order) :
    List Order × Warehouse × Rng × DayStats × List Shipment :=
  orders.foldl
    (fun acc o =>
      let inner := o.lines.foldl
        (fun acc2 ln =>
          let r := Warehouse.FulfillLine acc2.2.1 ln (products.getD ln.productId default) acc2.2.2.1 acc2.2.2.2.1
          (acc2.1 ++ [r.1], r.2.1, r.2.2.1, r.2.2.2,
           if 0 < r.1.deliveredPackages then acc2.2.2.2.2 ++ [(r.1.productId, r.1.deliveredPackages)]
           else acc2.2.2.2.2))
        (([] : List OrderLine), acc.2.1, acc.2.2.1, acc.2.2.2.1, ([] : List (ℕ × ℤ)))
      let o' : Order := { o with lines := inner.1 }
      let ships :=
        if inner.2.2.2.2 = [] then acc.2.2.2.2
        else acc.2.2.2.2 ++ [{ day := day + 1, shopId := o.shopId, items := inner.2.2.2.2 }]
      (acc.1 ++ [o'], inner.2.1, inner.2.2.1, inner.2.2.2.1, ships))
    (([] : List Order), wh, rng, st, ([] : List Shipment))

/-- The arrival-receipt body of `AdvanceDay` (lines 539-551): cap the
arriving packages by free capacity, receive the accepted part, log the
receipt and any dropped overflow. -/
def ReceiveArrival (products : List ProductConfig)
    (acc : Warehouse × List LogEntry) (a : ℕ × ℤ) :
    Warehouse × List LogEntry :=
  let pc := products.getD a.1 default
  let cur := acc.1.TotalPackages a.1
  let freeCap := pc.capacityPackages - cur
  let accepted := max 0 (min a.2 freeCap)
  let step :=
    if 0 < accepted then
      (acc.1.Receive a.1 accepted pc,
       PushLog acc.2 (LogEntry.supplyArrived pc.name accepted))
    else acc
  if accepted < a.2 then
    (step.1, PushLog step.2 (LogEntry.supplyOverflow pc.name (a.2 - accepted)))
  else step

/-- The write-off loop of `AdvanceDay` (lines 555-562). -/
def WriteOffAll (products : List ProductConfig) (k : ℕ)
    (wh : Warehouse) (st : DayStats) (log : List LogEntry) :
    Warehouse × DayStats × List LogEntry × List (ℕ × ℤ) :=
  (List.range k).foldl
    (fun acc pid =>
      let r := acc.1.WriteOffExpired pid (products.getD pid default) acc.2.1
      if 0 < r.1 then
        (r.2.1, r.2.2,
         PushLog acc.2.2.1 (LogEntry.writeOffDone (products.getD pid default).name r.1),
         acc.2.2.2 ++ [(pid, r.1)])
      else (r.2.1, r.2.2, acc.2.2.1, acc.2.2.2))
    (wh, st, log, ([] : List (ℕ × ℤ)))

/-- The discount loop of `AdvanceDay` (lines 564-570). -/
def DiscountAll (products : List ProductConfig) (k : ℕ)
    (wh : Warehouse) (log : List LogEntry) :
    Warehouse × List LogEntry :=
  (List.range k).foldl
    (fun acc pid =>
      let r := acc.1.ApplyDiscountIfNeeded pid (products.getD pid default)
      if 0 < r.1 then
        (r.2, PushLog acc.2 (LogEntry.discountApplied
          (products.getD pid default).name
          ⌊(products.getD pid default).discountPercent⌋ r.1))
      else (r.2, acc.2))
    (wh, log)

/-- The supplier-request loop of `AdvanceDay` (line 619). -/
def SupplierAll (cfg : SimConfig) (products : List ProductConfig)
    (wh : Warehouse) (k : ℕ)
    (acc : List SupplierDelivery × Rng × List LogEntry) :
    List SupplierDelivery × Rng × List LogEntry :=
  (List.range k).foldl (CreateSupplierRequestIfNeeded cfg products wh) acc

/-- Point lookup in the day-indexed shipment map (lines 572-574). -/
def MapLookup (m : List (ℕ × List Shipment)) (d : ℕ) : List Shipment :=
  ((m.lookup d).getD [])

/-- Append shipments under a key of the day-indexed map (lines
611-614); `std::map::operator[]` creates the entry if absent. -/
def MapAppend (m : List (ℕ × List Shipment)) (d : ℕ)
    (xs : List Shipment) : List (ℕ × List Shipment) :=
  if (m.lookup d).isSome then
    m.map fun p => if p.1 = d then (p.1, p.2 ++ xs) else p
  else m ++ [(d, xs)]

/-- `SimulatorImpl::BuildDailyAnimations` (lines 455-511). -/
def BuildDailyAnimations (rng : Rng) (supplierArrivals : List (ℕ × ℤ))
    (orders : List Order) (shipmentsDueToday : List Shipment)
    (writeOffByProduct : List (ℕ × ℤ)) : List Anim × Rng :=
  let a1 : List Anim := supplierArrivals.map fun pr =>
    { type := AnimType.SupplyTruck, t0 := 2/100, t1 := 22/100, payload := pr.2 }
  let a2 := orders.foldl
    (fun acc o =>
      let x := RandFloat acc.2 0 (8/100)
      let y := RandFloat x.2 0 (6/100)
      (acc.1 ++ [{ type := AnimType.OrderPaper,
                   t0 := 10/100 + x.1, t1 := 42/100 + y.1,
                   shopId := (o.shopId : ℤ),
                   payload := (o.lines.length : ℤ) }], y.2))
    (([] : List Anim), rng)
  let totalWO := writeOffByProduct.foldl (fun s pr => s + pr.2) 0
  let a3 : List Anim :=
    if 0 < totalWO then
      [{ type := AnimType.WasteTruck, t0 := 30/100, t1 := 55/100, payload := totalWO }]
    else []
  let base0 : ℚ := 58/100
  let base1 : ℚ := 98/100
  let per : ℚ := (base1 - base0) / ((max 1 shipmentsDueToday.length : ℕ) : ℚ)
  let a4 : List Anim := shipmentsDueToday.enum.map fun pr =>
    let totalPk := pr.2.items.foldl (fun s it => s + it.2) 0
    let t0 := base0 + per * (pr.1 : ℚ) + 1/100
    { type := AnimType.ShipmentTruck, shopId := (pr.2.shopId : ℤ),
      t0 := t0, t1 := t0 + min (20/100) (per * (9/10)), payload := totalPk }
  (a1 ++ a2.1 ++ a3 ++ a4, a2.2)

/-- `SimulatorImpl::AdvanceDay` (lines 513-632): the full per-day
sequence — guard, defensive re-clamp, pipeline countdown and arrivals,
shelf-life decay, write-off, discounting, order generation,
fulfillment, shipment scheduling, supplier requests, stats fold, day
summary log, and animation rebuild. -/
def SimulatorImpl.AdvanceDay (s0 : SimulatorImpl) : SimulatorImpl :=
  if s0.cfg.N ≤ s0.day then s0
  else
    let sC := s0.ClampAllProducts
    let products := sC.products
    let day := s0.day + 1
    let log1 := PushLog (PushLog sC.log LogEntry.separator) (LogEntry.dayStarted day)
    let pipe1 := s0.pipeline.map fun d => { d with daysUntilArrival := d.daysUntilArrival - 1 }
    let parts := pipe1.partition fun d => d.daysUntilArrival ≤ 0
    let arrivals := parts.1.map fun d => (d.productId, d.packages)
    let pr2 := arrivals.foldl (ReceiveArrival products) (sC.wh, log1)
    let wh3 := pr2.1.DecrementShelfLife
    let pr3 := WriteOffAll products s0.cfg.K wh3 {} pr2.2
    let writeOffByProduct := pr3.2.2.2
    let pr4 := DiscountAll products s0.cfg.K pr3.1 pr3.2.2.1
    let shipmentsDueToday := MapLookup s0.shipmentsByDay day
    let pr5 := GenOrders s0.cfg day products pr4.1 s0.rng
    let pr6 := FulfillOrders products day pr4.1 pr5.2 pr3.2.1 pr5.1
    let shipmentsTomorrow := pr6.2.2.2.2
    let pr7 :=
      if shipmentsTomorrow = [] then
        (s0.shipmentsByDay, PushLog pr4.2 LogEntry.noShipments)
      else
        (MapAppend s0.shipmentsByDay (day + 1) shipmentsTomorrow,
         PushLog pr4.2 (LogEntry.shipmentsFormed shipmentsTomorrow.length))
    let pr8 := SupplierAll s0.cfg products pr6.2.1 s0.cfg.K (parts.2, pr6.2.2.1, pr7.2)
    let st := pr6.2.2.2.1
    let log9 := PushLog pr8.2.2 (LogEntry.daySummary day st.revenue st.discountLoss st.writeOffLoss)
    let anims := BuildDailyAnimations pr8.2.1 arrivals pr6.1 shipmentsDueToday writeOffByProduct
    { cfg := s0.cfg, rng := anims.2, day := day, wh := pr6.2.1,
      products := products, shopNames := s0.shopNames,
      pipeline := pr8.1, shipmentsByDay := pr7.1,
      todaysOrders := pr6.1, todaysStats := st,
      totalStats := { revenue := s0.totalStats.revenue + st.revenue,
                      discountLoss := s0.totalStats.discountLoss + st.discountLoss,
                      writeOffLoss := s0.totalStats.writeOffLoss + st.writeOffLoss,
                      totalSoldUnits := s0.totalStats.totalSoldUnits + st.totalSoldUnits,
                      totalWriteOffUnits := s0.totalStats.totalWriteOffUnits + st.totalWriteOffUnits },
      log := log9, dailyAnims := anims.1 }

/-- `SetProductConfigs` (lines 700-705): rejected (no-op) unless the
list length equals K; otherwise the products are replaced and
`ClampAllProducts` re-normalizes them and reprices the batches. -/
def SetProductConfigs (s : SimulatorImpl) (inp : List ProductConfig) : SimulatorImpl :=
  if inp.length ≠ s.cfg.K then s
  else SimulatorImpl.ClampAllProducts { s with products := inp }

/-- `GetTodaysOrderRows` (lines 717-733). -/
def GetTodaysOrderRows (s : SimulatorImpl) : List OrderRow :=
  s.todaysOrders.foldl
    (fun out o => out ++ o.lines.map fun ln =>
      { shopId := o.shopId, productId := ln.productId,
        requestedUnits := ln.requestedUnits,
        chosenPackages := ln.chosenPackages,
        deliveredPackages := ln.deliveredPackages,
        deliveredUnits := ln.deliveredUnits })
    []

/-- The simulator after `n` calls to `AdvanceDay` on a freshly created
simulator. -/
def RunDays (c : SimConfig) : ℕ → SimulatorImpl
  | 0 => CreateSimulator c
  | n + 1 => (RunDays c n).AdvanceDay

/-- The externally observable snapshot of a simulator: day counter,
daily and cumulative stats, today's order rows and the log. -/
structure Observation where
  day : ℕ
  todaysStats : DayStats
  totalStats : DayStats
  orderRows : List OrderRow
  log : List LogEntry
deriving Repr, DecidableEq

/-- Take the observable snapshot of a simulator state. -/
def Observe (s : SimulatorImpl) : Observation :=
  { day := s.day, todaysStats := s.todaysStats, totalStats := s.totalStats,
    orderRows := GetTodaysOrderRows s, log := s.log }

/-- Componentwise sum of two day-stat records (the totals fold of
lines 621-625). -/
def AddStats (a b : DayStats) : DayStats :=
  { revenue := a.revenue + b.revenue,
    discountLoss := a.discountLoss + b.discountLoss,
    writeOffLoss := a.writeOffLoss + b.writeOffLoss,
    totalSoldUnits := a.totalSoldUnits + b.totalSoldUnits,
    totalWriteOffUnits := a.totalWriteOffUnits + b.totalWriteOffUnits }

/-- Sum of a list of day-stat records. -/
def SumStats (l : List DayStats) : DayStats := l.foldl AddStats {}

/-- Once the day counter has reached N, `AdvanceDay` returns the state
unchanged (the guard at line 514). -/
theorem AdvanceDay_frozen (s : SimulatorImpl) (h : s.cfg.N ≤ s.day) :
    s.AdvanceDay = s := by
  unfold SimulatorImpl.AdvanceDay
  rw [if_pos h]

/-- On an active day, the cumulative stats after `AdvanceDay` are the
previous cumulative stats plus the day's stats (the fold at lines
621-625). -/
theorem AdvanceDay_totals_step (s : SimulatorImpl) (h : s.day < s.cfg.N) :
    s.AdvanceDay.totalStats = AddStats s.totalStats s.AdvanceDay.todaysStats := by
  unfold SimulatorImpl.AdvanceDay
  rw [if_neg (not_le.mpr h)]
  rfl

/-- The per-day stats of each executed day since creation: day `n+1`
contributes an entry iff the guard let it run. -/
def DailyTrace (c : SimConfig) : ℕ → List DayStats
  | 0 => []
  | n + 1 =>
    if (RunDays c n).day < (RunDays c n).cfg.N then
      DailyTrace c n ++ [(RunDays c n).AdvanceDay.todaysStats]
    else DailyTrace c n

/-- Claim C5: after each completed `AdvanceDay`, every field of the
cumulative `totalStats` equals the sum of the corresponding
`todaysStats` field over all days simulated since the last reset. -/
theorem totalStats_eq_sum_dailyStats (c : SimConfig) (n : ℕ) :
    (RunDays c n).totalStats = SumStats (DailyTrace c n) := by
  induction n with
  | zero => rfl
  | succ n ih =>
    by_cases h : (RunDays c n).day < (RunDays c n).cfg.N
    · rw [RunDays, DailyTrace, if_pos h, SumStats, List.foldl_append,
        AdvanceDay_totals_step _ h, ih]
      rfl
    · rw [RunDays, DailyTrace, if_neg h, AdvanceDay_frozen _ (not_lt.mp h), ih]

/-- A concrete simulator state whose day counter has reached N. -/
def frozenSim : SimulatorImpl :=
  { cfg := {}, rng := { seed := 7, idx := 3 }, day := 20,
    wh := ⟨[[{ packages := 2, daysLeft := 5, discounted := false, unitPrice := 1 }]]⟩,
    products := [{}], shopNames := ["Точка 1"],
    pipeline := [{ productId := 0, packages := 3, daysUntilArrival := 2 }],
    shipmentsByDay := [], todaysOrders := [],
    todaysStats := {}, totalStats := {}, log := [], dailyAnims := [] }

/-- Claim C8: once `day ≥ N`, `AdvanceDay` leaves the entire simulator
state — day, warehouse, pipeline, orders, stats, log, animations and
the RNG state — unchanged. -/
theorem AdvanceDay_noop_past_N (s : SimulatorImpl) (h : s.cfg.N ≤ s.day) :
    s.AdvanceDay = s :=
  AdvanceDay_frozen s h

/-- Witness for C8 at a concrete frozen state. -/
theorem AdvanceDay_noop_past_N_witness :
    frozenSim.cfg.N ≤ frozenSim.day ∧ frozenSim.AdvanceDay = frozenSim :=
  ⟨by decide, AdvanceDay_noop_past_N frozenSim (by decide)⟩

/-- Claim C1: the whole simulation is a deterministic function of the
configuration (which includes the seed): two simulators created or
reset with identical seed and config and advanced the same number of
days agree, after every day, on the day counter, the daily and
cumulative stats, the order rows and the log sequence. -/
theorem run_deterministic (c1 c2 : SimConfig) (h : c1 = c2) (n : ℕ) :
    Observe (RunDays c1 n) = Observe (RunDays c2 n) := by
  subst h
  rfl

/-- Witness for C1 at the default configuration after two days. -/
theorem run_deterministic_witness :
    ({} : SimConfig) = {} ∧ Observe (RunDays {} 2) = Observe (RunDays {} 2) :=
  ⟨rfl, run_deterministic {} {} rfl 2⟩

/-- Claim C10: a line with `requestedUnits ≤ 0` (or a config with
`unitsPerPackage ≤ 0`) makes `FulfillLine` return immediately: the
line, the batch queues, the RNG and the day stats all come back
unchanged — in particular no randomness is consumed. -/
theorem FulfillLine_early_return (w : Warehouse) (line : OrderLine)
    (pc : ProductConfig) (rng : Rng) (st : DayStats)
    (h : line.requestedUnits ≤ 0 ∨ pc.unitsPerPackage ≤ 0) :
    w.FulfillLine line pc rng st = (line, w, rng, st) := by
  unfold Warehouse.FulfillLine
  rcases h with h | h
  · rw [if_pos h]
  · by_cases h1 : line.requestedUnits ≤ 0
    · rw [if_pos h1]
    · rw [if_neg h1, if_pos h]

/-- Witness for C10: a zero-unit request on a nonempty stock. -/
theorem FulfillLine_early_return_witness :
    (({ productId := 0, requestedUnits := 0 } : OrderLine).requestedUnits ≤ 0
        ∨ ({} : ProductConfig).unitsPerPackage ≤ 0)
    ∧ Warehouse.FulfillLine
        ⟨[[{ packages := 4, daysLeft := 3, discounted := false, unitPrice := 2 }]]⟩
        { productId := 0, requestedUnits := 0 } {} { seed := 5, idx := 0 } {}
      = ({ productId := 0, requestedUnits := 0 },
         ⟨[[{ packages := 4, daysLeft := 3, discounted := false, unitPrice := 2 }]]⟩,
         { seed := 5, idx := 0 }, {}) :=
  ⟨Or.inl (by decide),
   FulfillLine_early_return _ _ _ _ _ (Or.inl (by decide))⟩

/-- `(l.set i x).getD i d = x` when `i` is in range. -/
theorem getD_set_self {α : Type} (l : List α) (i : ℕ) (x d : α)
    (h : i < l.length) : (l.set i x).getD i d = x := by
  simp [List.getD, List.getElem?_set_self', List.getElem?_eq_getElem, h]

/-- A second pass of the discount scan over an already-scanned queue
changes nothing and affects no packages. -/
theorem DiscountQueue_idempotent (pc : ProductConfig) (dq : List Batch) :
    DiscountQueue pc (DiscountQueue pc dq).2 = (0, (DiscountQueue pc dq).2) := by
  induction dq with
  | nil => rfl
  | cons b rest ih =>
    by_cases hc : ¬ b.discounted = true ∧ 0 < b.daysLeft
        ∧ b.daysLeft ≤ pc.discountBeforeDays
    · simp only [DiscountQueue, if_pos hc]
      simp only [DiscountQueue, ih]
      simp
    · simp only [DiscountQueue, if_neg hc]
      simp only [DiscountQueue, ih]

/-- Claim C7: calling `ApplyDiscountIfNeeded` twice in succession with
the same product config leaves the state after the second call equal to
the state after the first, and the second call reports 0 affected
packages. -/
theorem ApplyDiscountIfNeeded_idempotent (w : Warehouse) (pid : ℕ)
    (pc : ProductConfig) :
    (w.ApplyDiscountIfNeeded pid pc).2.ApplyDiscountIfNeeded pid pc
      = (0, (w.ApplyDiscountIfNeeded pid pc).2) := by
  unfold Warehouse.ApplyDiscountIfNeeded
  by_cases hp : w.inv.length ≤ pid
  · rw [if_pos hp]
    simp only
    rw [if_pos hp]
  · rw [if_neg hp]
    simp only
    rw [if_neg (by simpa using hp)]
    rw [getD_set_self _ _ _ _ (lt_of_not_le hp), DiscountQueue_idempotent]
    simp [List.set_set]

/-- The modelled `RandInt` draw lies in `[lo, hi]` whenever `lo ≤ hi`. -/
theorem RandInt_mem (rng : Rng) (lo hi : ℤ) (h : lo ≤ hi) :
    lo ≤ (RandInt rng lo hi).1 ∧ (RandInt rng lo hi).1 ≤ hi := by
  simp only [RandInt, RngNext]
  have h0 : ((RngWord rng.seed rng.idx : ℤ)) % (hi - lo + 1) ≥ 0 :=
    Int.emod_nonneg _ (by omega)
  have h1 : ((RngWord rng.seed rng.idx : ℤ)) % (hi - lo + 1) < hi - lo + 1 :=
    Int.emod_lt_of_pos _ (by omega)
  omega

/-- Claim C6: `CreateSupplierRequestIfNeeded(pid)` appends a new
pending delivery iff stock plus incoming is below the reorder threshold
and the capacity-capped order quantity is positive; the created
delivery has exactly that quantity and a lead time in
`[supplierLeadTimeMin, supplierLeadTimeMax]`; otherwise the pipeline,
generator and log are unchanged. -/
theorem CreateSupplierRequest_spec (cfg : SimConfig)
    (products : List ProductConfig) (wh : Warehouse)
    (pipeline : List SupplierDelivery) (rng : Rng) (log : List LogEntry)
    (pid : ℕ) (hlt : cfg.supplierLeadTimeMin ≤ cfg.supplierLeadTimeMax) :
    (let pc := products.getD pid default
     let cur := wh.TotalPackages pid
     let incoming := IncomingPackages pipeline pid
     let want := min pc.reorderAmount (max 0 (pc.capacityPackages - (cur + incoming)))
     ((cur + incoming < pc.reorderThreshold ∧ 0 < want) →
        ∃ lead : ℤ, cfg.supplierLeadTimeMin ≤ lead
          ∧ lead ≤ cfg.supplierLeadTimeMax
          ∧ (CreateSupplierRequestIfNeeded cfg products wh (pipeline, rng, log) pid).1
              = pipeline ++ [{ productId := pid, packages := want, daysUntilArrival := lead }])
     ∧ (¬ (cur + incoming < pc.reorderThreshold ∧ 0 < want) →
        CreateSupplierRequestIfNeeded cfg products wh (pipeline, rng, log) pid
          = (pipeline, rng, log))) := by
  refine ⟨fun hcond => ?_, fun hncond => ?_⟩
  · refine ⟨(RandInt rng cfg.supplierLeadTimeMin cfg.supplierLeadTimeMax).1,
      (RandInt_mem rng _ _ hlt).1, (RandInt_mem rng _ _ hlt).2, ?_⟩
    unfold CreateSupplierRequestIfNeeded
    rw [if_pos hcond.1, if_pos hcond.2]
  · unfold CreateSupplierRequestIfNeeded
    by_cases h1 : wh.TotalPackages pid + IncomingPackages pipeline pid
        < (products.getD pid default).reorderThreshold
    · rw [if_pos h1, if_neg]
      intro hw
      exact hncond ⟨h1, hw⟩
    · rw [if_neg h1]

/-- Witness for C6: the reorder scenario of the spec — threshold 6,
capacity 20, reorder amount 12, current stock 4, nothing incoming —
creates exactly one delivery of 12 packages with an in-range lead
time. -/
theorem CreateSupplierRequest_spec_witness :
    (({} : SimConfig).supplierLeadTimeMin ≤ ({} : SimConfig).supplierLeadTimeMax)
    ∧ (let pc := ([({ reorderThreshold := 6, capacityPackages := 20,
                      reorderAmount := 12 } : ProductConfig)]).getD 0 default
       let wh : Warehouse :=
         ⟨[[{ packages := 4, daysLeft := 5, discounted := false, unitPrice := 1 }]]⟩
       let cur := wh.TotalPackages 0
       let incoming := IncomingPackages [] 0
       let want := min pc.reorderAmount (max 0 (pc.capacityPackages - (cur + incoming)))
       (cur + incoming < pc.reorderThreshold ∧ 0 < want)
       ∧ ∃ lead : ℤ, ({} : SimConfig).supplierLeadTimeMin ≤ lead
           ∧ lead ≤ ({} : SimConfig).supplierLeadTimeMax
           ∧ (CreateSupplierRequestIfNeeded {}
                [({ reorderThreshold := 6, capacityPackages := 20,
                    reorderAmount := 12 } : ProductConfig)]
                ⟨[[{ packages := 4, daysLeft := 5, discounted := false, unitPrice := 1 }]]⟩
                ([], { seed := 9, idx := 0 }, []) 0).1
               = [] ++ [{ productId := 0, packages := want, daysUntilArrival := lead }]) :=
  ⟨by decide,
   ⟨by decide,
    (CreateSupplierRequest_spec {}
      [({ reorderThreshold := 6, capacityPackages := 20,
          reorderAmount := 12 } : ProductConfig)]
      ⟨[[{ packages := 4, daysLeft := 5, discounted := false, unitPrice := 1 }]]⟩
      [] { seed := 9, idx := 0 } [] 0 (by decide)).1 (by decide)⟩⟩

/-- A concrete simulator whose product count matches its config's K. -/
def editSim : SimulatorImpl :=
  { cfg := {}, rng := { seed := 3, idx := 0 }, day := 1,
    wh := ⟨List.replicate 12 []⟩,
    products := List.replicate 12 {}, shopNames := [],
    pipeline := [], shipmentsByDay := [], todaysOrders := [],
    todaysStats := {}, totalStats := {}, log := [], dailyAnims := [] }

/-- A length-K product list containing an out-of-range field
(`unitsPerPackage = 0`). -/
def editInput : List ProductConfig :=
  List.replicate 12 ({ unitsPerPackage := 0 } : ProductConfig)

/-- Counterexample to C9 as stated: with a list of the right length K,
`SetProductConfigs` does not store the input verbatim — the stored
product list is the clamped input (here `unitsPerPackage` 0 is forced
to 1), so the replacement is not literally wholesale. -/
theorem SetProductConfigs_not_verbatim :
    editInput.length = editSim.cfg.K
    ∧ (SetProductConfigs editSim editInput).products ≠ editInput := by
  refine ⟨by decide, fun h => ?_⟩
  have h0 := congrArg (fun l => (l.getD 0 default).unitsPerPackage) h
  simp only at h0
  exact absurd h0 (by decide)

/-- Claim C9 (amended): `SetProductConfigs` is a rejecting no-op when
the list length differs from K; when the length equals K it replaces
the product list wholesale with the clamped (re-normalized) input. -/
theorem SetProductConfigs_spec :
    (∀ (s : SimulatorImpl) (inp : List ProductConfig),
        inp.length ≠ s.cfg.K → SetProductConfigs s inp = s)
    ∧ (∀ (s : SimulatorImpl) (inp : List ProductConfig),
        inp.length = s.cfg.K →
          (SetProductConfigs s inp).products = inp.map ClampProduct) := by
  constructor
  · intro s inp h
    unfold SetProductConfigs
    rw [if_pos h]
  · intro s inp h
    unfold SetProductConfigs
    rw [if_neg (not_ne_iff.mpr h)]
    rfl

/-- Witness for C9 (amended): a wrong-length list is rejected
unchanged; a right-length list is stored clamped. -/
theorem SetProductConfigs_spec_witness :
    ((([] : List ProductConfig).length ≠ frozenSim.cfg.K)
      ∧ SetProductConfigs frozenSim [] = frozenSim)
    ∧ (editInput.length = editSim.cfg.K
      ∧ (SetProductConfigs editSim editInput).products = editInput.map ClampProduct) :=
  ⟨⟨by decide, SetProductConfigs_spec.1 frozenSim [] (by decide)⟩,
   ⟨by decide, SetProductConfigs_spec.2 editSim editInput (by decide)⟩⟩

/-- After the front scan of `WriteOffExpired`, a queue ordered by
nondecreasing `daysLeft` contains no expired batch. -/
theorem DropExpiredFront_clears (dq : List Batch)
    (hs : dq.Pairwise (fun a b => a.daysLeft ≤ b.daysLeft)) :
    ∀ b ∈ (DropExpiredFront dq).2, 0 < b.daysLeft := by
  induction dq with
  | nil =>
    intro b hb
    simp [DropExpiredFront] at hb
  | cons a rest ih =>
    rcases List.pairwise_cons.mp hs with ⟨ha, hrest⟩
    by_cases h : a.daysLeft ≤ 0
    · simp only [DropExpiredFront, if_pos h]
      exact ih hrest
    · simp only [DropExpiredFront, if_neg h]
      intro b hb
      rcases List.mem_cons.mp hb with rfl | hb
      · omega
      · have := ha b hb
        omega

/-- A queue whose front is fresh but which hides an expired batch
behind it.  Such queues are reachable: `SetProductConfigs` may lower
`shelfLifeDays` mid-run, making a later-received batch expire before an
earlier one. -/
def stuckQueue : List Batch :=
  [{ packages := 1, daysLeft := 2, discounted := false, unitPrice := 1 },
   { packages := 1, daysLeft := 0, discounted := false, unitPrice := 1 }]

/-- Counterexample to C4 as stated: on a queue that is not ordered by
`daysLeft`, `WriteOffExpired` stops at the unexpired front and leaves a
batch with `daysLeft ≤ 0` in the sequence. -/
theorem WriteOffExpired_misses_nonfront :
    ∃ b ∈ ((Warehouse.WriteOffExpired ⟨[stuckQueue]⟩ 0 {} {}).2.1.inv.getD 0 []),
      b.daysLeft ≤ 0 := by decide

/-- Claim C4 (amended): provided the product's batch queue is ordered
by nondecreasing `daysLeft` — which holds whenever `shelfLifeDays` is
not edited mid-run, since batches are appended with the full shelf life
and all decay together — `WriteOffExpired(pid)` leaves no batch with
`daysLeft ≤ 0` anywhere in that product's sequence: the expired batches
form a contiguous front prefix and the front scan removes them all. -/
theorem WriteOffExpired_sorted_clears (w : Warehouse) (pid : ℕ)
    (pc : ProductConfig) (st : DayStats)
    (hs : (w.inv.getD pid []).Pairwise (fun a b => a.daysLeft ≤ b.daysLeft)) :
    ∀ b ∈ ((w.WriteOffExpired pid pc st).2.1.inv.getD pid []), 0 < b.daysLeft := by
  unfold Warehouse.WriteOffExpired
  by_cases hp : w.inv.length ≤ pid
  · rw [if_pos hp]
    intro b hb
    rw [List.getD_eq_default _ _ hp] at hb
    simp at hb
  · rw [if_neg hp]
    simp only
    rw [getD_set_self _ _ _ _ (lt_of_not_le hp)]
    exact DropExpiredFront_clears _ hs

/-- A queue ordered by nondecreasing `daysLeft` with an expired front
batch. -/
def sortedQueue : List Batch :=
  [{ packages := 2, daysLeft := 0, discounted := false, unitPrice := 1 },
   { packages := 1, daysLeft := 4, discounted := false, unitPrice := 1 }]

/-- Witness for C4 (amended) on a concrete ordered queue. -/
theorem WriteOffExpired_sorted_clears_witness :
    ((⟨[sortedQueue]⟩ : Warehouse).inv.getD 0 []).Pairwise
        (fun a b => a.daysLeft ≤ b.daysLeft)
    ∧ ∀ b ∈ ((Warehouse.WriteOffExpired ⟨[sortedQueue]⟩ 0 {} {}).2.1.inv.getD 0 []),
        0 < b.daysLeft :=
  ⟨by decide, WriteOffExpired_sorted_clears ⟨[sortedQueue]⟩ 0 {} {} (by decide)⟩

/-- Every word of the modelled stream is below 2^32. -/
theorem RngWord_lt (seed i : ℕ) : RngWord seed i < 4294967296 := by
  unfold RngWord
  exact Nat.mod_lt _ (by norm_num)

/-- The modelled `RandFloat` draw lies in `[lo, hi)` whenever `lo < hi`. -/
theorem RandFloat_mem (rng : Rng) (lo hi : ℚ) (h : lo < hi) :
    lo ≤ (RandFloat rng lo hi).1 ∧ (RandFloat rng lo hi).1 < hi := by
  simp only [RandFloat, RngNext]
  have h0 : (0:ℚ) ≤ (RngWord rng.seed rng.idx : ℚ) / 4294967296 := by positivity
  have h1 : (RngWord rng.seed rng.idx : ℚ) / 4294967296 < 1 := by
    rw [div_lt_one (by norm_num)]
    exact_mod_cast RngWord_lt rng.seed rng.idx
  constructor
  · nlinarith
  · nlinarith

/-- `TotalPackages` of an out-of-range product id is 0. -/
theorem TotalPackages_oob (w : Warehouse) (pid : ℕ) (h : w.inv.length ≤ pid) :
    w.TotalPackages pid = 0 := by
  unfold Warehouse.TotalPackages
  rw [List.getD_eq_default _ _ h]
  rfl

/-- `Receive` with an out-of-range product id is a no-op. -/
theorem Receive_oob (w : Warehouse) (pid : ℕ) (n : ℤ) (pc : ProductConfig)
    (h : w.inv.length ≤ pid) : w.Receive pid n pc = w := by
  unfold Warehouse.Receive
  rw [if_pos h]

/-- Receiving `n > 0` packages into an in-range queue adds exactly `n`
to the product's package total. -/
theorem TotalPackages_Receive (w : Warehouse) (pid : ℕ) (n : ℤ)
    (pc : ProductConfig) (hlen : pid < w.inv.length) (hn : 0 < n) :
    (w.Receive pid n pc).TotalPackages pid = w.TotalPackages pid + n := by
  unfold Warehouse.Receive Warehouse.TotalPackages
  rw [if_neg (not_le.mpr hlen), if_neg (not_le.mpr hn)]
  simp only
  rw [getD_set_self _ _ _ _ hlen, List.foldl_append]
  simp

/-- The arrival receipt of `AdvanceDay` keeps the product total within
capacity whenever it actually performs a `Receive`
(`accepted > 0`). -/
theorem ReceiveArrival_capacity (products : List ProductConfig)
    (wh : Warehouse) (log : List LogEntry) (pid : ℕ) (pk : ℤ)
    (h : 0 < max 0 (min pk ((products.getD pid default).capacityPackages
          - wh.TotalPackages pid))) :
    (ReceiveArrival products (wh, log) (pid, pk)).1.TotalPackages pid
      ≤ (products.getD pid default).capacityPackages := by
  have hm0 : 0 < min pk ((products.getD pid default).capacityPackages
      - wh.TotalPackages pid) := by
    rcases lt_max_iff.mp h with h0 | h0
    · exact absurd h0 (lt_irrefl 0)
    · exact h0
  have hmax : max 0 (min pk ((products.getD pid default).capacityPackages
      - wh.TotalPackages pid)) = min pk ((products.getD pid default).capacityPackages
      - wh.TotalPackages pid) := max_eq_right hm0.le
  have hle : min pk ((products.getD pid default).capacityPackages
      - wh.TotalPackages pid) ≤ (products.getD pid default).capacityPackages
      - wh.TotalPackages pid := min_le_right _ _
  have key : (wh.Receive pid (max 0 (min pk ((products.getD pid default).capacityPackages
      - wh.TotalPackages pid))) (products.getD pid default)).TotalPackages pid
      ≤ (products.getD pid default).capacityPackages := by
    by_cases hlen : pid < wh.inv.length
    · rw [TotalPackages_Receive wh pid _ _ hlen h]
      omega
    · rw [Receive_oob _ _ _ _ (le_of_not_lt hlen),
        TotalPackages_oob _ _ (le_of_not_lt hlen)]
      have := TotalPackages_oob wh pid (le_of_not_lt hlen)
      omega
  unfold ReceiveArrival
  simp only
  rw [if_pos h]
  by_cases hov : max 0 (min pk ((products.getD pid default).capacityPackages
      - wh.TotalPackages pid)) < pk
  · rw [if_pos hov]
    exact key
  · rw [if_neg hov]
    exact key

/-- The clamped capacity is non-negative. -/
theorem ClampProduct_cap_nonneg (p : ProductConfig) :
    0 ≤ (ClampProduct p).capacityPackages := by
  unfold ClampProduct
  exact le_max_left 0 _

/-- The initial-stock rounding never exceeds the capacity when the
draw stays below 0.70. -/
theorem initP_le_cap (cap : ℤ) (f : ℚ) (hcap : 0 ≤ cap)
    (_hf0 : 3/10 ≤ f) (hf1 : f < 7/10) :
    round ((cap : ℚ) * f) ≤ cap := by
  rw [round_eq]
  have hcapq : (0 : ℚ) ≤ (cap : ℚ) := by exact_mod_cast hcap
  have h2 : (cap : ℚ) * f + 1/2 < ((cap + 1 : ℤ) : ℚ) := by
    push_cast
    nlinarith
  have := Int.floor_lt.mpr h2
  omega

/-- The freshly stocked queue of one reset entry respects the clamped
capacity. -/
theorem entry_capacity (pc : ProductConfig) (initP : ℤ)
    (hcap : 0 ≤ pc.capacityPackages) (hle : initP ≤ pc.capacityPackages) :
    ((if 0 < initP then
        [{ packages := initP, daysLeft := pc.shelfLifeDays, discounted := false,
           unitPrice := pc.basePricePerUnit }] else []) : List Batch).foldl
      (fun s b => s + b.packages) 0 ≤ pc.capacityPackages := by
  split_ifs with h
  · simpa using hle
  · simpa using hcap

/-- Every entry produced by the reset loop has its queue total within
its clamped capacity. -/
theorem ResetGenLoop_capacity (i k : ℕ) (rng : Rng) (j : ℕ) :
    (((ResetGenLoop i k rng).1.map Prod.snd).getD j []).foldl
        (fun s b => s + b.packages) 0
      ≤ (((ResetGenLoop i k rng).1.map Prod.fst).getD j default).capacityPackages := by
  induction k generalizing i rng j with
  | zero =>
    simp [ResetGenLoop]
    decide
  | succ k ih =>
    cases j with
    | zero =>
      simp only [ResetGenLoop, List.map_cons, List.getD_cons_zero]
      exact entry_capacity _ _ (ClampProduct_cap_nonneg _)
        (initP_le_cap _ _ (ClampProduct_cap_nonneg _)
          (RandFloat_mem _ _ _ (by norm_num)).1
          (RandFloat_mem _ _ _ (by norm_num)).2)
    | succ j =>
      simp only [ResetGenLoop, List.map_cons, List.getD_cons_succ]
      exact ih _ _ _

/-- After `Reset`, every product's initial stock is within its
capacity. -/
theorem Reset_capacity (s : SimulatorImpl) (c : SimConfig) (pid : ℕ) :
    (s.Reset c).wh.TotalPackages pid
      ≤ ((s.Reset c).products.getD pid default).capacityPackages := by
  unfold SimulatorImpl.Reset ResetSim Warehouse.TotalPackages
  exact ResetGenLoop_capacity 0 _ _ pid

/-- Claim C3: after every `Receive` the simulation performs — the
initial stocking in `Reset` and the capacity-capped arrival receipts in
`AdvanceDay` — the product's `TotalPackages` is at most its
`capacityPackages`. -/
theorem capacity_after_receive :
    (∀ (products : List ProductConfig) (wh : Warehouse) (log : List LogEntry)
        (pid : ℕ) (pk : ℤ),
        0 < max 0 (min pk ((products.getD pid default).capacityPackages
            - wh.TotalPackages pid)) →
        (ReceiveArrival products (wh, log) (pid, pk)).1.TotalPackages pid
          ≤ (products.getD pid default).capacityPackages)
    ∧ (∀ (s : SimulatorImpl) (c : SimConfig) (pid : ℕ),
        (s.Reset c).wh.TotalPackages pid
          ≤ ((s.Reset c).products.getD pid default).capacityPackages) :=
  ⟨fun products wh log pid pk h => ReceiveArrival_capacity products wh log pid pk h,
   fun s c pid => Reset_capacity s c pid⟩

/-- Witness for C3: a concrete arrival of 5 packages into a stock of 3
with capacity 10 is accepted in full and stays within capacity. -/
theorem capacity_after_receive_witness :
    (0 < max 0 (min 5 ((([({ capacityPackages := 10 } : ProductConfig)]).getD 0
          default).capacityPackages
        - (⟨[[{ packages := 3, daysLeft := 2, discounted := false, unitPrice := 1 }]]⟩
            : Warehouse).TotalPackages 0)))
    ∧ (ReceiveArrival [({ capacityPackages := 10 } : ProductConfig)]
        (⟨[[{ packages := 3, daysLeft := 2, discounted := false, unitPrice := 1 }]]⟩, [])
        (0, 5)).1.TotalPackages 0
      ≤ (([({ capacityPackages := 10 } : ProductConfig)]).getD 0 default).capacityPackages :=
  ⟨by decide, capacity_after_receive.1 _ _ [] 0 5 (by decide)⟩

/-- The documented package-quantization policy (spec §4.2, steps 1-5)
as a function of the requested units, the package size and the three
coin outcomes it may consume: the tie-break coin, the 35% jitter
trial and the jitter direction coin. -/
def QuantizePolicy (req upp : ℤ) (tie jit dir : Bool) : ℤ :=
  let exactQ : ℚ := (req : ℚ) / (upp : ℚ)
  let fl : ℤ := ⌊exactQ⌋
  let ce : ℤ := ⌈exactQ⌉
  let c0 := if fl = ce then fl
            else if |exactQ - (fl : ℚ)| < |(ce : ℚ) - exactQ| then fl
            else if |(ce : ℚ) - exactQ| < |exactQ - (fl : ℚ)| then ce
            else if tie then fl else ce
  let c1 := if jit then max 0 (c0 + (if dir then -1 else 1)) else c0
  if c1 = 0 then 1 else c1

/-- The chosen package count of the code is the documented policy at
the coin outcomes the shared generator actually produced. -/
theorem ChoosePackages_policy (req upp : ℤ) (rng : Rng) :
    ∃ tie jit dir : Bool,
      (ChoosePackages req upp rng).1 = QuantizePolicy req upp tie jit dir := by
  unfold ChoosePackages QuantizePolicy
  simp only
  set q : ℚ := (req : ℚ) / (upp : ℚ) with hq
  by_cases h1 : (⌊q⌋ : ℤ) = ⌈q⌉
  · simp only [if_pos h1]
    refine ⟨true, (RandBernoulli rng (35/100)).1,
            (RandBernoulli (RandBernoulli rng (35/100)).2 (1/2)).1, ?_⟩
    by_cases hj : (RandBernoulli rng (35/100)).1 = true
    · simp only [if_pos hj]
    · simp only [if_neg hj]
  · simp only [if_neg h1]
    by_cases h2 : |q - (⌊q⌋ : ℚ)| < |(⌈q⌉ : ℚ) - q|
    · simp only [if_pos h2]
      refine ⟨true, (RandBernoulli rng (35/100)).1,
              (RandBernoulli (RandBernoulli rng (35/100)).2 (1/2)).1, ?_⟩
      by_cases hj : (RandBernoulli rng (35/100)).1 = true
      · simp only [if_pos hj]
      · simp only [if_neg hj]
    · simp only [if_neg h2]
      by_cases h3 : |(⌈q⌉ : ℚ) - q| < |q - (⌊q⌋ : ℚ)|
      · simp only [if_pos h3]
        refine ⟨true, (RandBernoulli rng (35/100)).1,
                (RandBernoulli (RandBernoulli rng (35/100)).2 (1/2)).1, ?_⟩
        by_cases hj : (RandBernoulli rng (35/100)).1 = true
        · simp only [if_pos hj]
        · simp only [if_neg hj]
      · simp only [if_neg h3]
        refine ⟨(RandBernoulli rng (1/2)).1,
                (RandBernoulli (RandBernoulli rng (1/2)).2 (35/100)).1,
                (RandBernoulli (RandBernoulli (RandBernoulli rng (1/2)).2 (35/100)).2 (1/2)).1, ?_⟩
        by_cases hj : (RandBernoulli (RandBernoulli rng (1/2)).2 (35/100)).1 = true
        · simp only [if_pos hj]
        · simp only [if_neg hj]

/-- For a positive request and a positive package size the chosen count
is at least 1 (the clamp to ≥ 0 plus the zero-to-one forcing). -/
theorem ChoosePackages_pos (req upp : ℤ) (rng : Rng)
    (hreq : 0 < req) (hupp : 1 ≤ upp) : 1 ≤ (ChoosePackages req upp rng).1 := by
  unfold ChoosePackages
  simp only
  have hqpos : (0:ℚ) < (req:ℚ)/(upp:ℚ) := by
    apply div_pos
    · exact_mod_cast hreq
    · exact_mod_cast (by omega : (0:ℤ) < upp)
  set q : ℚ := (req : ℚ) / (upp : ℚ) with hq
  have hfl : 0 ≤ ⌊q⌋ := Int.floor_nonneg.mpr hqpos.le
  have hce : 0 ≤ ⌈q⌉ := Int.ceil_nonneg hqpos.le
  by_cases h1 : (⌊q⌋ : ℤ) = ⌈q⌉
  · simp only [if_pos h1]
    by_cases hj : (RandBernoulli rng (35/100)).1 = true
    · simp only [if_pos hj]
      split_ifs <;> omega
    · simp only [if_neg hj]
      split_ifs <;> omega
  · simp only [if_neg h1]
    by_cases h2 : |q - (⌊q⌋ : ℚ)| < |(⌈q⌉ : ℚ) - q|
    · simp only [if_pos h2]
      by_cases hj : (RandBernoulli rng (35/100)).1 = true
      · simp only [if_pos hj]
        split_ifs <;> omega
      · simp only [if_neg hj]
        split_ifs <;> omega
    · simp only [if_neg h2]
      by_cases h3 : |(⌈q⌉ : ℚ) - q| < |q - (⌊q⌋ : ℚ)|
      · simp only [if_pos h3]
        by_cases hj : (RandBernoulli rng (35/100)).1 = true
        · simp only [if_pos hj]
          split_ifs <;> omega
        · simp only [if_neg hj]
          split_ifs <;> omega
      · simp only [if_neg h3]
        by_cases hj : (RandBernoulli (RandBernoulli rng (1/2)).2 (35/100)).1 = true
        · simp only [if_pos hj]
          split_ifs <;> omega
        · simp only [if_neg hj]
          split_ifs <;> omega

/-- Claim C2: for a line with `requestedUnits > 0` and a config with
`unitsPerPackage ≥ 1`, `FulfillLine` picks `chosenPackages` by the
documented quantization policy (at the coin outcomes the shared RNG
produced), forces it to at least 1, and sets
`deliveredPackages = min(chosenPackages, TotalPackages before)` — so
the delivery is bounded by both the choice and the prior availability —
and `deliveredUnits = deliveredPackages * unitsPerPackage`. -/
theorem FulfillLine_policy (w : Warehouse) (line : OrderLine)
    (pc : ProductConfig) (rng : Rng) (st : DayStats)
    (hreq : 0 < line.requestedUnits) (hupp : 1 ≤ pc.unitsPerPackage) :
    (∃ tie jit dir : Bool,
        (w.FulfillLine line pc rng st).1.chosenPackages
          = QuantizePolicy line.requestedUnits pc.unitsPerPackage tie jit dir)
    ∧ 1 ≤ (w.FulfillLine line pc rng st).1.chosenPackages
    ∧ (w.FulfillLine line pc rng st).1.deliveredPackages
        = min ((w.FulfillLine line pc rng st).1.chosenPackages)
            (w.TotalPackages line.productId)
    ∧ (w.FulfillLine line pc rng st).1.deliveredPackages
        ≤ (w.FulfillLine line pc rng st).1.chosenPackages
    ∧ (w.FulfillLine line pc rng st).1.deliveredPackages
        ≤ w.TotalPackages line.productId
    ∧ (w.FulfillLine line pc rng st).1.deliveredUnits
        = (w.FulfillLine line pc rng st).1.deliveredPackages * pc.unitsPerPackage := by
  have h1 : ¬ line.requestedUnits ≤ 0 := by omega
  have h2 : ¬ pc.unitsPerPackage ≤ 0 := by omega
  unfold Warehouse.FulfillLine
  rw [if_neg h1, if_neg h2]
  exact ⟨ChoosePackages_policy line.requestedUnits pc.unitsPerPackage rng,
         ChoosePackages_pos line.requestedUnits pc.unitsPerPackage rng hreq hupp,
         rfl, min_le_left _ _, min_le_right _ _, rfl⟩

/-- Witness for C2: the spec's own quantization example — 25 units at
10 units per package over a stock of 3 packages. -/
theorem FulfillLine_policy_witness :
    (0 < ({ productId := 0, requestedUnits := 25 } : OrderLine).requestedUnits
      ∧ 1 ≤ ({} : ProductConfig).unitsPerPackage)
    ∧ ((∃ tie jit dir : Bool,
        (Warehouse.FulfillLine
            ⟨[[{ packages := 3, daysLeft := 6, discounted := false, unitPrice := 1 }]]⟩
            { productId := 0, requestedUnits := 25 } {} { seed := 1, idx := 0 } {}).1.chosenPackages
          = QuantizePolicy 25 10 tie jit dir)
      ∧ 1 ≤ (Warehouse.FulfillLine
            ⟨[[{ packages := 3, daysLeft := 6, discounted := false, unitPrice := 1 }]]⟩
            { productId := 0, requestedUnits := 25 } {} { seed := 1, idx := 0 } {}).1.chosenPackages
      ∧ (Warehouse.FulfillLine
            ⟨[[{ packages := 3, daysLeft := 6, discounted := false, unitPrice := 1 }]]⟩
            { productId := 0, requestedUnits := 25 } {} { seed := 1, idx := 0 } {}).1.deliveredPackages
          = min ((Warehouse.FulfillLine
            ⟨[[{ packages := 3, daysLeft := 6, discounted := false, unitPrice := 1 }]]⟩
            { productId := 0, requestedUnits := 25 } {} { seed := 1, idx := 0 } {}).1.chosenPackages)
            ((⟨[[{ packages := 3, daysLeft := 6, discounted := false, unitPrice := 1 }]]⟩ : Warehouse).TotalPackages 0)
      ∧ (Warehouse.FulfillLine
            ⟨[[{ packages := 3, daysLeft := 6, discounted := false, unitPrice := 1 }]]⟩
            { productId := 0, requestedUnits := 25 } {} { seed := 1, idx := 0 } {}).1.deliveredPackages
          ≤ (Warehouse.FulfillLine
            ⟨[[{ packages := 3, daysLeft := 6, discounted := false, unitPrice := 1 }]]⟩
            { productId := 0, requestedUnits := 25 } {} { seed := 1, idx := 0 } {}).1.chosenPackages
      ∧ (Warehouse.FulfillLine
            ⟨[[{ packages := 3, daysLeft := 6, discounted := false, unitPrice := 1 }]]⟩
            { productId := 0, requestedUnits := 25 } {} { seed := 1, idx := 0 } {}).1.deliveredPackages
          ≤ (⟨[[{ packages := 3, daysLeft := 6, discounted := false, unitPrice := 1 }]]⟩ : Warehouse).TotalPackages 0
      ∧ (Warehouse.FulfillLine
            ⟨[[{ packages := 3, daysLeft := 6, discounted := false, unitPrice := 1 }]]⟩
            { productId := 0, requestedUnits := 25 } {} { seed := 1, idx := 0 } {}).1.deliveredUnits
          = (Warehouse.FulfillLine
            ⟨[[{ packages := 3, daysLeft := 6, discounted := false, unitPrice := 1 }]]⟩
            { productId := 0, requestedUnits := 25 } {} { seed := 1, idx := 0 } {}).1.deliveredPackages
            * ({} : ProductConfig).unitsPerPackage) :=
  ⟨⟨by decide, by decide⟩,
   FulfillLine_policy
     ⟨[[{ packages := 3, daysLeft := 6, discounted := false, unitPrice := 1 }]]⟩
     { productId := 0, requestedUnits := 25 } {} { seed := 1, idx := 0 } {}
     (by decide) (by decide)⟩
